import Mathlib

/-!
Shallow embedding of the LinuxAgent command pipeline: the safety classifier,
timeout selection, interactive-command classification and execution routing
from `src/command_executor.py`, the per-turn dispatch and the sequential
execution loop from `src/agent.py`, and the oracle-reply normalization from
`src/deepseek_api.py`.  Python string operations are modelled by structural
functions over `List Char` (ASCII whitespace only, which is all the code
relies on), so every definition evaluates inside the kernel.
-/

namespace LA

/-! ## Python string primitives -/

/-- `matchesAt p l` : the pattern `p` occurs at the head of `l`
(the building block for Python `startswith` and `in`). -/
def matchesAt : List Char → List Char → Bool
  | [], _ => true
  | _ :: _, [] => false
  | p :: ps, c :: cs => p == c && matchesAt ps cs

/-- Does `p` occur as a contiguous sublist anywhere in `l`? -/
def containsFrom (p : List Char) : List Char → Bool
  | [] => matchesAt p []
  | c :: cs => matchesAt p (c :: cs) || containsFrom p cs

/-- Python `sub in s` (substring containment). -/
def pyIn (sub s : String) : Bool := containsFrom sub.data s.data

/-- Python `s.startswith(p)`. -/
def pyStartsWith (s p : String) : Bool := matchesAt p.data s.data

/-- Python `s.endswith(p)`. -/
def pyEndsWith (s p : String) : Bool := matchesAt p.data.reverse s.data.reverse

/-- Helper for Python `s.count(sub)` : counts non-overlapping occurrences,
skipping past a match (`k` is the number of characters still to skip). -/
def pyCountAux (sub : List Char) : List Char → Nat → Nat
  | [], _ => 0
  | _ :: cs, k + 1 => pyCountAux sub cs k
  | c :: cs, 0 =>
    if matchesAt sub (c :: cs) then 1 + pyCountAux sub cs (sub.length - 1)
    else pyCountAux sub cs 0

/-- Python `s.count(sub)` for non-empty `sub` (the code only counts
`"&&"` and `";"`). -/
def pyCount (sub s : String) : Nat := pyCountAux sub.data s.data 0

/-- Helper for Python `s.split()` : accumulates the current word (reversed). -/
def splitWsAux : List Char → List Char → List String
  | [], acc => if acc.isEmpty then [] else [String.mk acc.reverse]
  | c :: cs, acc =>
    if c.isWhitespace then
      if acc.isEmpty then splitWsAux cs [] else String.mk acc.reverse :: splitWsAux cs []
    else splitWsAux cs (c :: acc)

/-- Python `s.split()` (split on whitespace runs, no empty fields). -/
def pySplit (s : String) : List String := splitWsAux s.data []

/-- Drop leading whitespace of a character list. -/
def dropWsL : List Char → List Char
  | [] => []
  | c :: cs => if c.isWhitespace then dropWsL cs else c :: cs

/-- Python `s.strip()` (ASCII whitespace). -/
def pyStrip (s : String) : String :=
  String.mk (dropWsL ((dropWsL s.data.reverse).reverse))

/-- Helper for Python `s.split(sep)` with a one-character separator,
keeping empty fields. -/
def splitCharAux (sep : Char) : List Char → List Char → List String
  | [], acc => [String.mk acc.reverse]
  | c :: cs, acc =>
    if c == sep then String.mk acc.reverse :: splitCharAux sep cs []
    else splitCharAux sep cs (c :: acc)

/-- Python `s.split(sep)` for a one-character separator. -/
def pySplitChar (s : String) (sep : Char) : List String := splitCharAux sep s.data []

/-- Python `s[1:]`. -/
def dropFirstChar (s : String) : String := String.mk (s.data.drop 1)

/-- Python `s[1:-1]` given `s[1:]` semantics twice (drop last character). -/
def dropLastChar (s : String) : String := String.mk s.data.dropLast

/-- Remove every character satisfying `bad` (models `re.sub` with a
character-alternation pattern and empty replacement). -/
def removeChars (bad : Char → Bool) (s : String) : String :=
  String.mk (s.data.filter (fun c => !bad c))

/-! ## Security configuration (`src/config.py`, `SecurityConfig`) -/

structure SecurityConfig where
  confirm_dangerous_commands : Bool
  blocked_commands : List String
  confirm_patterns : List String
deriving DecidableEq

/-! ## `CommandExecutor` (`src/command_executor.py`) -/

/-- One blocked-token test from `CommandExecutor.is_command_safe`:
`command.strip() == blocked or command.strip().startswith(f"{blocked} ")`. -/
def blockedHit (command b : String) : Bool :=
  pyStrip command == b || pyStartsWith (pyStrip command) (b ++ " ")

/-- `CommandExecutor.is_command_safe`: first matching blocked token wins,
then the first matching confirm pattern, else safe with empty reason. -/
def is_command_safe (sec : SecurityConfig) (command : String) : Bool × String :=
  match sec.blocked_commands.find? (blockedHit command) with
  | some b => (false, "命令 \x27" ++ b ++ "\x27 已被禁止执行")
  | none =>
    match sec.confirm_patterns.find? (fun p => pyIn p command) with
    | some p => (false, "命令包含潜在危险操作 \x27" ++ p ++ "\x27")
    | none => (true, "")

def pkg_managers : List String := ["dnf", "yum", "apt", "apt-get", "pacman", "zypper"]

/-- One package-manager test from `CommandExecutor._get_command_timeout`;
the `update`/`upgrade` branch and the `install` branch both return 600,
so they are folded into a single predicate. -/
def pkgHit (command pm : String) : Bool :=
  pyIn (pm ++ " update") command || pyIn (pm ++ " upgrade") command ||
    pyIn (pm ++ " install") command

/-- `CommandExecutor._get_command_timeout`. -/
def get_command_timeout (command : String) : Nat :=
  match pkg_managers.find? (pkgHit command) with
  | some _ => 600
  | none =>
    if pyCount "&&" command > 2 || pyCount ";" command > 2 then 300 else 120

/-- The lexicon local to `CommandExecutor._is_interactive_command`. -/
def interactive_lexicon : List String :=
  ["vim", "vi", "nano", "emacs", "less", "more", "top", "htop",
   "watch", "tail -f", "mysql", "psql", "telnet", "ssh", "python",
   "ipython", "bash", "sh", "zsh", "ksh", "csh", "fish"]

/-- `CommandExecutor._is_interactive_command`.  (For a non-empty,
all-whitespace command the Python indexes `split()[0]` out of range; the
model returns the `""` first word there, which changes nothing on the
commands the claims quantify over — the matching theorem carries the
corresponding hypothesis.) -/
def is_interactive_command (command : String) : Bool :=
  let first_word := if command == "" then "" else (pySplit command).headD ""
  if interactive_lexicon.contains first_word then true
  else interactive_lexicon.any (fun ic => pyIn ic command)

/-- `CommandExecutor._execute_interactive_command` (non-exceptional path):
run through `os.system`, capture nothing, and on POSIX extract the child's
exit code from the wait status with `>> 8`.  The editor usage hints are
prints and do not affect the returned value. -/
def execute_interactive_command (osSystem : String → Nat) (posix : Bool)
    (command : String) : String × String × Nat :=
  let status := osSystem command
  ("", "", if posix then Nat.shiftRight status 8 else status)

/-- `CommandExecutor.execute_command`: interactive commands are routed to
the interactive path before any timeout is selected; otherwise the captured
runner (`subprocess.Popen` collaborator) runs under the explicit timeout or
the one chosen by `_get_command_timeout`. -/
def execute_command (runCaptured : String → Nat → String × String × Nat)
    (osSystem : String → Nat) (posix : Bool) (command : String)
    (timeout : Option Nat) : String × String × Nat :=
  if is_interactive_command command then
    execute_interactive_command osSystem posix command
  else
    runCaptured command (timeout.getD (get_command_timeout command))

/-- `CommandExecutor.execute_multiple_commands`: run in order, append each
result, and break unconditionally after the first non-zero exit code. -/
def execute_multiple_commands (execOne : String → String × String × Nat) :
    List String → List (String × String × String × Nat)
  | [] => []
  | cmd :: rest =>
    let r := execOne cmd
    if r.2.2 != 0 then [(cmd, r.1, r.2.1, r.2.2)]
    else (cmd, r.1, r.2.1, r.2.2) :: execute_multiple_commands execOne rest

/-! ## `DeepSeekAPI._parse_text_response` — command extraction
(`src/deepseek_api.py`).  Only the `"command"` key of the result dict is
consumed by the claims; its computation is embedded in full.  The fenced
code-block regex `r"```(?:bash|shell)?\s*\n(.*?)\n```"` (DOTALL) is
implemented with the regex engine's semantics: leftmost match, alternatives
in order, greedy `\s*` backtracking against the required newline, and
non-greedy body stopping at the first closing fence. -/

/-- Length of the maximal whitespace run at the head (the candidates of the
greedy `\s*`). -/
def wsRun : List Char → Nat
  | [] => 0
  | c :: cs => if c.isWhitespace then wsRun cs + 1 else 0

/-- Characters strictly before the first occurrence of `stop`, `none` when
`stop` never occurs: the non-greedy `(.*?)` capped by a literal. -/
def beforeMark (stop : List Char) : List Char → Option (List Char)
  | [] => if matchesAt stop [] then some [] else none
  | c :: cs =>
    if matchesAt stop (c :: cs) then some []
    else (beforeMark stop cs).map (fun r => c :: r)

/-- Backtracking for `\s*\n(.*?)\n``` `: try a whitespace prefix of length
`k` (longest first), require `'\n'` right after it, then the shortest body
closed by a fence. -/
def fenceDescend (lp : List Char) : Nat → Option (List Char)
  | 0 =>
    if lp.get? 0 == some '\n' then beforeMark ("\n```".data) (lp.drop 1) else none
  | k + 1 =>
    match
      (if lp.get? (k + 1) == some '\n' then beforeMark ("\n```".data) (lp.drop (k + 2))
       else none) with
    | some content => some content
    | none => fenceDescend lp k

/-- Match `\s*\n(.*?)\n``` ` at `lp`. -/
def fenceBody (lp : List Char) : Option (List Char) :=
  fenceDescend lp (wsRun lp)

/-- Match `(?:bash|shell)?\s*\n(.*?)\n``` ` at `l` (alternatives in regex
order, falling through on failure). -/
def fencedAt (l : List Char) : Option (List Char) :=
  (if matchesAt ("bash".data) l then fenceBody (l.drop 4) else none) <|>
    ((if matchesAt ("shell".data) l then fenceBody (l.drop 5) else none) <|>
      fenceBody l)

/-- Leftmost match of the fenced code-block pattern; returns the captured
group. -/
def fencedSearch : List Char → Option (List Char)
  | [] => none
  | c :: cs =>
    match (if matchesAt ("```".data) (c :: cs) then fencedAt (cs.drop 2) else none) with
    | some content => some content
    | none => fencedSearch cs

/-- The per-line filter inside the fenced-block branch: non-empty and not a
comment line. -/
def goodFenceLine (l : String) : Bool :=
  l != "" && !(pyStartsWith l "#") && !(pyStartsWith l "//") && !(pyStartsWith l "/*")

/-- Fenced-block branch: first non-comment, non-empty stripped line, else the
first line stripped. -/
def fencedCommand (content : String) : String :=
  let ls := pySplitChar (pyStrip content) '\n'
  match ls.find? (fun raw => goodFenceLine (pyStrip raw)) with
  | some raw => pyStrip raw
  | none => pyStrip (ls.headD "")

/-- An explicit command label line. -/
def cmdLabelLine (l : String) : Bool :=
  pyStartsWith l "命令:" || pyStartsWith l "Command:" || pyStartsWith l "要执行的命令:"

/-- Python `line.split(":", 1)[1]` (everything after the first colon; the
callers guarantee a colon is present, the `""` defaults are unreachable). -/
def joinColon : List String → String
  | [] => ""
  | [x] => x
  | x :: xs => x ++ ":" ++ joinColon xs

def afterFirstColon (s : String) : String :=
  match pySplitChar s ':' with
  | [] => ""
  | [_] => ""
  | _ :: rest => joinColon rest

/-- `re.sub(r'\*\*|\*|`', '', ...)`: removes every `*` and backtick. -/
def stripEmphStar (s : String) : String :=
  removeChars (fun c => c == '*' || c == '`') s

def command_prefixes : List String :=
  ["ls", "cd", "grep", "echo", "cat", "sudo", "apt", "yum", "dnf", "find", "ps", "mkdir"]

/-- One command-verb prefix test: the line starts with the prefix and either
ends there or continues with a space or `-`. -/
def prefixHit (l p : String) : Bool :=
  pyStartsWith l p &&
    (l.data.length == p.data.length || l.data.get? p.data.length == some ' ' ||
      l.data.get? p.data.length == some '-')

/-- The prefix-scan line filter (the three `#` tests are kept as written in
the source even though they are subsumed by the last one). -/
def scanLineOk (l : String) : Bool :=
  l != "" && !(pyStartsWith l "###") && !(pyStartsWith l "##") && !(pyStartsWith l "#") &&
    !(pyIn "解释" l) && command_prefixes.any (prefixHit l)

/-- The too-long-first-line fallback when extraction yielded no command. -/
def fallbackFirstLine (text : String) : String :=
  let f := (pySplitChar text '\n').headD ""
  if f.data.length < 100 then pyStrip f else ""

/-- The `"command"` field of `DeepSeekAPI._parse_text_response`: fenced block
first, else explicit label, else command-verb prefix scan, else a `$`/`#`
first line with the sigil stripped; an absent or empty result falls back to a
short first line; finally backticks/underscores/asterisks are removed, one
enclosing matching quote pair is dropped, and the result is stripped. -/
def parse_text_command (text : String) : String :=
  let extracted : Option String :=
    match fencedSearch text.data with
    | some content => some (fencedCommand (String.mk content))
    | none =>
      let lines := pySplitChar text '\n'
      match lines.find? (fun raw => cmdLabelLine (pyStrip raw)) with
      | some raw => some (stripEmphStar (pyStrip (afterFirstColon (pyStrip raw))))
      | none =>
        match lines.find? (fun raw => scanLineOk (pyStrip raw)) with
        | some raw => some (pyStrip raw)
        | none =>
          let fl := pyStrip (lines.headD "")
          if pyStartsWith fl "$" || pyStartsWith fl "#" then
            some (pyStrip (dropFirstChar fl))
          else none
  let c0 :=
    match extracted with
    | some c => if c == "" then fallbackFirstLine text else c
    | none => fallbackFirstLine text
  let c1 := removeChars (fun c => c == '`' || c == '_' || c == '*') c0
  let c2 :=
    if (pyStartsWith c1 "\"" && pyEndsWith c1 "\"") ||
        (pyStartsWith c1 "\x27" && pyEndsWith c1 "\x27") then
      dropLastChar (dropFirstChar c1)
    else c1
  pyStrip c2

/-! ## JSON path of `DeepSeekAPI.get_command_for_task` -/

/-- JSON values, as produced by the `json.loads` collaborator. -/
inductive JValue where
  | null : JValue
  | bool (b : Bool) : JValue
  | num (n : Int) : JValue
  | str (s : String) : JValue
  | arr (xs : List JValue) : JValue
  | obj (fields : List (String × JValue)) : JValue

/-- Result of `get_command_for_task` after the transport succeeded: either
the JSON reply verbatim, or the text-extraction fallback (of which the
claims consume the command field). -/
inductive OracleReply where
  | fromJson (v : JValue)
  | fromText (command : String)

/-- `DeepSeekAPI.get_command_for_task`, content-handling part: `json.loads`
(the `jsonParse` collaborator) first, returning its result untouched on
success; on a decode error, fall back to `_parse_text_response`. -/
def get_command_for_task (jsonParse : String → Option JValue) (content : String) :
    OracleReply :=
  match jsonParse content with
  | some v => OracleReply.fromJson v
  | none => OracleReply.fromText (parse_text_command content)

/-! A concrete model of the `json.loads` collaborator (a standard JSON
parser over a practical subset: strings with the common escapes, integers,
booleans, null, arrays, objects), used to instantiate `jsonParse` in
witnesses. -/

def skipWs : List Char → List Char
  | [] => []
  | c :: cs => if c == ' ' || c == '\n' || c == '\t' || c == '\r' then skipWs cs else c :: cs

def decEsc (e : Char) : Option Char :=
  if e == '"' then some '"'
  else if e == '\\' then some '\\'
  else if e == '/' then some '/'
  else if e == 'n' then some '\n'
  else if e == 't' then some '\t'
  else if e == 'r' then some '\r'
  else none

/-- Parse a JSON string body after the opening quote; returns the decoded
characters and the rest after the closing quote. -/
def parseStrBody : List Char → Option (List Char × List Char)
  | [] => none
  | '"' :: cs => some ([], cs)
  | '\\' :: [] => none
  | '\\' :: e :: cs =>
    match decEsc e with
    | some d => (parseStrBody cs).map (fun r => (d :: r.1, r.2))
    | none => none
  | c :: cs => (parseStrBody cs).map (fun r => (c :: r.1, r.2))

def parseNatGo : List Char → Nat → Nat × List Char
  | [], acc => (acc, [])
  | c :: cs, acc =>
    if c.isDigit then parseNatGo cs (acc * 10 + (c.toNat - 48)) else (acc, c :: cs)

def parseNatL : List Char → Option (Nat × List Char)
  | [] => none
  | c :: cs => if c.isDigit then some (parseNatGo (c :: cs) 0) else none

/-- Object-field loop, parameterized by the value parser `pv`. -/
def parseObjLoop (pv : List Char → Option (JValue × List Char)) :
    Nat → List Char → Option (List (String × JValue) × List Char)
  | 0, _ => none
  | fuel + 1, l =>
    match skipWs l with
    | '"' :: cs =>
      match parseStrBody cs with
      | none => none
      | some (key, rest) =>
        match skipWs rest with
        | ':' :: rest' =>
          match pv rest' with
          | none => none
          | some (v, rest'') =>
            match skipWs rest'' with
            | ',' :: more =>
              (parseObjLoop pv fuel more).map (fun r => ((String.mk key, v) :: r.1, r.2))
            | '}' :: more => some ([(String.mk key, v)], more)
            | _ => none
        | _ => none
    | _ => none

/-- Array-item loop, parameterized by the value parser `pv`. -/
def parseArrLoop (pv : List Char → Option (JValue × List Char)) :
    Nat → List Char → Option (List JValue × List Char)
  | 0, _ => none
  | fuel + 1, l =>
    match pv l with
    | none => none
    | some (v, rest) =>
      match skipWs rest with
      | ',' :: more => (parseArrLoop pv fuel more).map (fun r => (v :: r.1, r.2))
      | ']' :: more => some ([v], more)
      | _ => none

/-- One step of the JSON value parser, with `pv` handling nested values. -/
def parseStep (pv : List Char → Option (JValue × List Char)) (l : List Char) :
    Option (JValue × List Char) :=
  match skipWs l with
  | [] => none
  | c :: cs =>
    if c == '"' then
      (parseStrBody cs).map (fun r => (JValue.str (String.mk r.1), r.2))
    else if c == '{' then
      match skipWs cs with
      | '}' :: rest => some (JValue.obj [], rest)
      | rest => (parseObjLoop pv (rest.length + 1) rest).map (fun r => (JValue.obj r.1, r.2))
    else if c == '[' then
      match skipWs cs with
      | ']' :: rest => some (JValue.arr [], rest)
      | rest => (parseArrLoop pv (rest.length + 1) rest).map (fun r => (JValue.arr r.1, r.2))
    else if c == 't' then
      if matchesAt ("rue".data) cs then some (JValue.bool true, cs.drop 3) else none
    else if c == 'f' then
      if matchesAt ("alse".data) cs then some (JValue.bool false, cs.drop 4) else none
    else if c == 'n' then
      if matchesAt ("ull".data) cs then some (JValue.null, cs.drop 3) else none
    else if c == '-' then
      (parseNatL cs).map (fun r => (JValue.num (-(r.1 : Int)), r.2))
    else if c.isDigit then
      (parseNatL (c :: cs)).map (fun r => (JValue.num (r.1 : Int), r.2))
    else none

def parseJValueF : Nat → List Char → Option (JValue × List Char)
  | 0 => fun _ => none
  | fuel + 1 => parseStep (parseJValueF fuel)

/-- Model of the `json.loads` collaborator. -/
def jsonParseModel (s : String) : Option JValue :=
  match parseJValueF (s.data.length + 1) s.data with
  | some (v, rest) => if skipWs rest == [] then some v else none
  | none => none

/-! ## `Agent` (`src/agent.py`) -/

/-- The oracle result as consumed by `Agent.process_user_input` via
`result.get("command", "")`, `result.get("explanation", "")`,
`result.get("dangerous", False)`, `result.get("reason_if_dangerous", "")`. -/
structure CommandProposal where
  command : String
  explanation : String
  dangerous : Bool
  reason_if_dangerous : String
deriving DecidableEq

def simple_commands : List String :=
  ["ls", "pwd", "cd", "cat", "echo", "mkdir", "touch", "cp", "mv", "rm", "ps", "df", "du"]

def suspicious_starts : List String :=
  ["###", "##", "#", "解释:", "命令目的:", "安全性:", "是否是危险命令:"]

/-- The confirmation message shown for a risky command. -/
def dangerConfirmMsg (reason : String) : String :=
  "此命令可能有风险: " ++ reason ++ "。确认执行?"

/-- What a turn of `Agent.process_user_input` decides to do: which executor
interaction it performs, or at which validation step it stops.  The
`noCommand`/`tooLong`/`proseRejected`/`oracleProceed` outcomes occur only
after the oracle has been consulted; `oracleProceed` stands for the
remaining phase (file-creation detection, decomposition offer, safety
confirmation, execution) on a validated proposal. -/
inductive TurnAction where
  | directExec (command : String)
  | directCancelled
  | editOp (command : String)
  | interactiveOp (command : String)
  | noCommand
  | tooLong
  | proseRejected
  | oracleProceed (proposal : CommandProposal)
deriving DecidableEq

/-- The trivial fast-path test of `Agent.process_user_input`:
`command_parts and command_parts[0] in simple_commands`. -/
def isTrivialInput (input : String) : Bool :=
  match pySplit input with
  | [] => false
  | p :: _ => simple_commands.contains p

/-- `Agent.process_user_input`, with the natural-language pattern matchers
`_parse_create_edit_request` / `_parse_interactive_command` and the oracle
as collaborator parameters; dispatch order as in the source: trivial
whitelist fast path (with its safety gate) first, then the direct edit and
interactive matchers, then the oracle proposal with the empty-command,
length-cap and prose-prefix validations in that order. -/
def processUserInput (sec : SecurityConfig) (confirm : String → Bool)
    (parseCreateEdit parseInteractiveCmd : String → Option String)
    (oracle : String → CommandProposal) (input : String) : TurnAction :=
  if isTrivialInput input then
    let sr := is_command_safe sec input
    if !sr.1 && sec.confirm_dangerous_commands && !(confirm (dangerConfirmMsg sr.2)) then
      TurnAction.directCancelled
    else
      TurnAction.directExec input
  else
    match parseCreateEdit input with
    | some cmd => TurnAction.editOp cmd
    | none =>
      match parseInteractiveCmd input with
      | some cmd => TurnAction.interactiveOp cmd
      | none =>
        let proposal := oracle input
        if proposal.command == "" then TurnAction.noCommand
        else if proposal.command.length > 1000 then TurnAction.tooLong
        else if suspicious_starts.any (fun p => pyStartsWith proposal.command p) then
          TurnAction.proseRejected
        else TurnAction.oracleProceed proposal

/-- The stderr marker stamped into a step skipped after a refused safety
confirmation. -/
def cancelledMarker : String := "用户取消执行"

/-- The continue-after-failure prompt. -/
def continueConfirmMsg : String := "上一步执行失败，是否继续执行后续步骤?"

/-- The loop of `Agent._execute_commands_sequence`: `i` is the 1-based index
of the current step and `total` the sequence length.  An unsafe step whose
confirmation is refused is recorded as `(cmd, "", cancelledMarker, 1)` and
the loop continues; an executed step is recorded, and when it fails before
the last step the operator is asked whether to continue — refusal breaks the
loop. -/
def execSeqSteps (sec : SecurityConfig) (execOne : String → String × String × Nat)
    (confirm : String → Bool) (total : Nat) :
    Nat → List String → List (String × String × String × Nat)
  | _, [] => []
  | i, cmd :: rest =>
    let sr := is_command_safe sec cmd
    if !sr.1 && sec.confirm_dangerous_commands && !(confirm (dangerConfirmMsg sr.2)) then
      (cmd, "", cancelledMarker, 1) :: execSeqSteps sec execOne confirm total (i + 1) rest
    else
      let r := execOne cmd
      (cmd, r.1, r.2.1, r.2.2) ::
        (if r.2.2 != 0 && decide (i < total) then
          (if confirm continueConfirmMsg then execSeqSteps sec execOne confirm total (i + 1) rest
           else [])
         else execSeqSteps sec execOne confirm total (i + 1) rest)

/-- `Agent._execute_commands_sequence` (the recorded results list). -/
def execute_commands_sequence (sec : SecurityConfig)
    (execOne : String → String × String × Nat) (confirm : String → Bool)
    (commands : List String) : List (String × String × String × Nat) :=
  execSeqSteps sec execOne confirm commands.length 1 commands

/-- The result row recorded for one executed command. -/
def entryOf (execOne : String → String × String × Nat) (cmd : String) :
    String × String × String × Nat :=
  (cmd, (execOne cmd).1, (execOne cmd).2.1, (execOne cmd).2.2)

/-- Stated from the claim's words, for comparison with
`execute_multiple_commands`: the ordered results for every command up to and
including the first failing one, and nothing afterwards. -/
def claimPrefixThroughFailure (execOne : String → String × String × Nat)
    (cmds : List String) : List (String × String × String × Nat) :=
  (cmds.takeWhile (fun c => (execOne c).2.2 == 0)).map (entryOf execOne) ++
    ((cmds.dropWhile (fun c => (execOne c).2.2 == 0)).take 1).map (entryOf execOne)

/-- A configuration with confirmation enabled and no blocked tokens or
confirm patterns (the defaults of `src/config.py` when the `security`
section is absent). -/
def secOpen : SecurityConfig := ⟨true, [], []⟩

/-- Process-execution collaborator for the `["false", "echo ok"]` scenario:
`false` exits 1 with no output, `echo ok` exits 0 printing `ok`. -/
def execFalseEcho : String → String × String × Nat := fun c =>
  if c == "false" then ("", "", 1)
  else if c == "echo ok" then ("ok\n", "", 0)
  else ("", "", 0)

/-- A trivial-path user input longer than 1000 characters. -/
def longEcho : String := "echo " ++ String.mk (List.replicate 1000 'a')

/-- An oracle proposal whose command is longer than 1000 characters. -/
def longOracle : CommandProposal := ⟨String.mk (List.replicate 1001 'b'), "", false, ""⟩

/-! ## Theorems -/

/-- C1: `is_command_safe` returns unsafe with a reason naming a blocked
token whenever the trimmed command equals some configured blocked token or
starts with it followed by a space (regardless of the confirm patterns, so
the blocked check takes precedence); otherwise, when a configured confirm
pattern occurs as a substring, it returns unsafe with a reason naming that
pattern; otherwise it returns safe with an empty reason. -/
theorem c1_safety_classifier (sec : SecurityConfig) (command : String) :
    ((∃ b ∈ sec.blocked_commands, blockedHit command b = true) →
      (is_command_safe sec command).1 = false ∧
        ∃ b ∈ sec.blocked_commands, blockedHit command b = true ∧
          (is_command_safe sec command).2 = "命令 \x27" ++ b ++ "\x27 已被禁止执行") ∧
    ((∀ b ∈ sec.blocked_commands, blockedHit command b = false) →
      (∃ p ∈ sec.confirm_patterns, pyIn p command = true) →
      (is_command_safe sec command).1 = false ∧
        ∃ p ∈ sec.confirm_patterns, pyIn p command = true ∧
          (is_command_safe sec command).2 = "命令包含潜在危险操作 \x27" ++ p ++ "\x27") ∧
    ((∀ b ∈ sec.blocked_commands, blockedHit command b = false) →
      (∀ p ∈ sec.confirm_patterns, pyIn p command = false) →
      is_command_safe sec command = (true, "")) := by
  refine ⟨?_, ?_, ?_⟩
  · rintro ⟨b, hb, hhit⟩
    have hsome : (sec.blocked_commands.find? (blockedHit command)).isSome := by
      rw [List.find?_isSome]
      exact ⟨b, hb, hhit⟩
    obtain ⟨b', hb'⟩ := Option.isSome_iff_exists.mp hsome
    exact ⟨by simp [is_command_safe, hb'],
      b', List.mem_of_find?_eq_some hb', List.find?_some hb',
      by simp [is_command_safe, hb']⟩
  · rintro hnone ⟨p, hp, hpin⟩
    have hbn : sec.blocked_commands.find? (blockedHit command) = none := by
      rw [List.find?_eq_none]
      intro x hx
      simp [hnone x hx]
    have hsome : (sec.confirm_patterns.find? (fun q => pyIn q command)).isSome := by
      rw [List.find?_isSome]
      exact ⟨p, hp, hpin⟩
    obtain ⟨p', hp'⟩ := Option.isSome_iff_exists.mp hsome
    exact ⟨by simp [is_command_safe, hbn, hp'],
      p', List.mem_of_find?_eq_some hp', by simpa using List.find?_some hp',
      by simp [is_command_safe, hbn, hp']⟩
  · intro hb hp
    have hbn : sec.blocked_commands.find? (blockedHit command) = none := by
      rw [List.find?_eq_none]
      intro x hx
      simp [hb x hx]
    have hpn : sec.confirm_patterns.find? (fun q => pyIn q command) = none := by
      rw [List.find?_eq_none]
      intro x hx
      simp [hp x hx]
    simp [is_command_safe, hbn, hpn]

/-- Witness for C1 at a concrete configuration and command. -/
theorem c1_safety_classifier_witness :
    (is_command_safe ⟨true, ["rm"], ["dd"]⟩ "rm -rf /").1 = false ∧
      ∃ b ∈ ["rm"], blockedHit "rm -rf /" b = true ∧
        (is_command_safe ⟨true, ["rm"], ["dd"]⟩ "rm -rf /").2 =
          "命令 \x27" ++ b ++ "\x27 已被禁止执行" :=
  (c1_safety_classifier ⟨true, ["rm"], ["dd"]⟩ "rm -rf /").1 (by decide)

/-- C5: the implicit timeout is 600s when the command contains a
package-manager name followed by a space and `update`/`upgrade`/`install`,
else 300s when it has more than 2 `&&` or more than 2 `;` occurrences, else
120s; in particular `"dnf upgrade"` gets 600s, a command with 3 `;`
separators and no package manager gets 300s, and `"ls"` gets 120s. -/
theorem c5_timeout_selection :
    (∀ command : String,
      ((∃ pm ∈ pkg_managers, pkgHit command pm = true) →
        get_command_timeout command = 600) ∧
      ((∀ pm ∈ pkg_managers, pkgHit command pm = false) →
        (pyCount "&&" command > 2 ∨ pyCount ";" command > 2) →
        get_command_timeout command = 300) ∧
      ((∀ pm ∈ pkg_managers, pkgHit command pm = false) →
        ¬(pyCount "&&" command > 2 ∨ pyCount ";" command > 2) →
        get_command_timeout command = 120)) ∧
    get_command_timeout "dnf upgrade" = 600 ∧
    get_command_timeout "a; b; c; d" = 300 ∧
    get_command_timeout "ls" = 120 := by
  refine ⟨fun command => ⟨?_, ?_, ?_⟩, by decide, by decide, by decide⟩
  · rintro ⟨pm, hpm, hhit⟩
    have hsome : (pkg_managers.find? (pkgHit command)).isSome := by
      rw [List.find?_isSome]
      exact ⟨pm, hpm, hhit⟩
    obtain ⟨pm', hpm'⟩ := Option.isSome_iff_exists.mp hsome
    simp [get_command_timeout, hpm']
  · intro hnone hcnt
    have hn : pkg_managers.find? (pkgHit command) = none := by
      rw [List.find?_eq_none]
      intro x hx
      simp [hnone x hx]
    have : (pyCount "&&" command > 2 || pyCount ";" command > 2) = true := by
      rcases hcnt with h | h <;> simp [h]
    simp [get_command_timeout, hn, this]
  · intro hnone hcnt
    have hn : pkg_managers.find? (pkgHit command) = none := by
      rw [List.find?_eq_none]
      intro x hx
      simp [hnone x hx]
    have : (pyCount "&&" command > 2 || pyCount ";" command > 2) = false := by
      push_neg at hcnt
      simp only [Bool.or_eq_false_iff, decide_eq_false_iff_not, Nat.not_lt]
      exact ⟨hcnt.1, hcnt.2⟩
    simp [get_command_timeout, hn, this]

/-- Witness for C5 at a concrete command with a package-manager hit. -/
theorem c5_timeout_selection_witness : get_command_timeout "sudo apt-get install nginx" = 600 :=
  (c5_timeout_selection.1 "sudo apt-get install nginx").1 (by decide)

/-- C7: a command classified interactive is executed without output capture:
`execute_command` returns empty stdout and stderr with only the child's exit
code (the wait status shifted by 8 on POSIX), and the result is independent
of the captured runner and of any timeout argument, so no timeout applies. -/
theorem c7_interactive_no_capture
    (runCaptured runCaptured' : String → Nat → String × String × Nat)
    (osSystem : String → Nat) (posix : Bool) (command : String)
    (t t' : Option Nat) (h : is_interactive_command command = true) :
    execute_command runCaptured osSystem posix command t =
      ("", "", if posix then Nat.shiftRight (osSystem command) 8 else osSystem command) ∧
    execute_command runCaptured osSystem posix command t =
      execute_command runCaptured' osSystem posix command t' := by
  simp [execute_command, h, execute_interactive_command]

/-- Witness for C7: `vim /etc/hosts`, run with two different captured
runners and timeouts. -/
theorem c7_interactive_no_capture_witness :
    execute_command (fun _ _ => ("captured", "err", 0)) (fun _ => 256) true
        "vim /etc/hosts" (some 5) =
      execute_command (fun _ _ => ("other", "", 7)) (fun _ => 256) true
        "vim /etc/hosts" none :=
  (c7_interactive_no_capture (fun _ _ => ("captured", "err", 0))
    (fun _ _ => ("other", "", 7)) (fun _ => 256) true "vim /etc/hosts"
    (some 5) none (by decide)).2

/-- C9: `_is_interactive_command` returns true exactly when the first
whitespace-delimited token is in the interactive lexicon or some lexicon
entry occurs as a raw substring of the command (stated for the commands on
which the Python function is defined); consequently the non-interactive
command `"cat fish.txt"` is classified interactive (both `"sh"` and
`"fish"` occur inside the file name) and is executed without output
capture. -/
theorem c9_interactive_substring_classifier :
    (∀ command : String, command = "" ∨ pySplit command ≠ [] →
      (is_interactive_command command = true ↔
        (if command == "" then "" else (pySplit command).headD "") ∈ interactive_lexicon ∨
          ∃ ic ∈ interactive_lexicon, pyIn ic command = true)) ∧
    is_interactive_command "cat fish.txt" = true ∧
    (∀ (runCaptured : String → Nat → String × String × Nat) (osSystem : String → Nat)
        (posix : Bool) (t : Option Nat),
      execute_command runCaptured osSystem posix "cat fish.txt" t =
        ("", "", if posix then Nat.shiftRight (osSystem "cat fish.txt") 8
                 else osSystem "cat fish.txt")) := by
  refine ⟨fun command _h => ?_, by decide, fun runCaptured osSystem posix t => ?_⟩
  · have hexp : is_interactive_command command =
        (interactive_lexicon.contains
            (if command == "" then "" else (pySplit command).headD "") ||
          interactive_lexicon.any (fun ic => pyIn ic command)) := by
      simp only [is_interactive_command]
      cases hc : interactive_lexicon.contains
          (if command == "" then "" else (pySplit command).headD "") <;> simp [hc]
    rw [hexp]
    simp only [Bool.or_eq_true, List.any_eq_true]
    constructor
    · rintro (hc | ⟨ic, hmem, hic⟩)
      · exact Or.inl (List.mem_of_elem_eq_true hc)
      · exact Or.inr ⟨ic, hmem, hic⟩
    · rintro (hmem | ⟨ic, hmem, hic⟩)
      · exact Or.inl (List.elem_eq_true_of_mem hmem)
      · exact Or.inr ⟨ic, hmem, hic⟩
  · simp [execute_command, execute_interactive_command,
      (by decide : is_interactive_command "cat fish.txt" = true)]

/-- Witness for C9 at a concrete command. -/
theorem c9_interactive_substring_classifier_witness :
    is_interactive_command "bash script.sh" = true :=
  (c9_interactive_substring_classifier.1 "bash script.sh" (by decide)).mpr
    (Or.inl (by decide))

/-- C10: `execute_multiple_commands` executes the list strictly in order and
stops unconditionally right after the first non-zero exit code: the result
equals the ordered rows for every command up to and including the first
failing one, and the recorded commands form a prefix of the input list. -/
theorem c10_stop_after_first_failure (execOne : String → String × String × Nat)
    (cmds : List String) :
    execute_multiple_commands execOne cmds = claimPrefixThroughFailure execOne cmds ∧
    (execute_multiple_commands execOne cmds).map (fun e => e.1) =
      cmds.take (execute_multiple_commands execOne cmds).length := by
  constructor
  · induction cmds with
    | nil => rfl
    | cons c rest ih =>
      by_cases h : (execOne c).2.2 = 0
      · simp [execute_multiple_commands, claimPrefixThroughFailure,
          List.takeWhile_cons, List.dropWhile_cons, h, entryOf] at ih ⊢
        simpa [claimPrefixThroughFailure, entryOf] using ih
      · simp [execute_multiple_commands, claimPrefixThroughFailure,
          List.takeWhile_cons, List.dropWhile_cons, h, entryOf]
  · induction cmds with
    | nil => rfl
    | cons c rest ih =>
      by_cases h : (execOne c).2.2 = 0
      · simp [execute_multiple_commands, h, ih]
      · simp [execute_multiple_commands, h]

/-- C2: in `_execute_commands_sequence`, a step whose safety confirmation is
refused is recorded as `(cmd, "", cancellation reason, 1)` and the loop
proceeds to the next step; after an executed step fails (non-zero exit,
before the last step) and the operator declines to continue, the remaining
steps are never attempted; on `["false", "echo ok"]` the result has 2
entries when continuation is confirmed (first exit code 1, second executed
normally) and 1 entry when it is declined. -/
theorem c2_sequence_skip_and_abort :
    (∀ (sec : SecurityConfig) (execOne : String → String × String × Nat)
        (confirm : String → Bool) (total i : Nat) (cmd : String) (rest : List String),
      (is_command_safe sec cmd).1 = false →
      sec.confirm_dangerous_commands = true →
      confirm (dangerConfirmMsg (is_command_safe sec cmd).2) = false →
      execSeqSteps sec execOne confirm total i (cmd :: rest) =
        (cmd, "", cancelledMarker, 1) :: execSeqSteps sec execOne confirm total (i + 1) rest) ∧
    (∀ (sec : SecurityConfig) (execOne : String → String × String × Nat)
        (confirm : String → Bool) (total i : Nat) (cmd : String) (rest : List String),
      (is_command_safe sec cmd).1 = true →
      (execOne cmd).2.2 ≠ 0 → i < total →
      confirm continueConfirmMsg = false →
      execSeqSteps sec execOne confirm total i (cmd :: rest) =
        [(cmd, (execOne cmd).1, (execOne cmd).2.1, (execOne cmd).2.2)]) ∧
    execute_commands_sequence secOpen execFalseEcho (fun _ => true) ["false", "echo ok"] =
      [("false", "", "", 1), ("echo ok", "ok\n", "", 0)] ∧
    execute_commands_sequence secOpen execFalseEcho (fun _ => false) ["false", "echo ok"] =
      [("false", "", "", 1)] ∧
    (execute_commands_sequence secOpen execFalseEcho (fun _ => true)
      ["false", "echo ok"]).length = 2 ∧
    (execute_commands_sequence secOpen execFalseEcho (fun _ => false)
      ["false", "echo ok"]).length = 1 := by
  refine ⟨?_, ?_, by decide, by decide, by decide, by decide⟩
  · intro sec execOne confirm total i cmd rest h1 h2 h3
    simp [execSeqSteps, h1, h2, h3]
  · intro sec execOne confirm total i cmd rest hsafe hne hlt hconf
    simp [execSeqSteps, hsafe, bne_iff_ne, hne, hlt, hconf]

/-- Witness for C2 (the refused-safety-confirmation conjunct) at a concrete
configuration: the skipped step is recorded and the sequence goes on. -/
theorem c2_sequence_skip_and_abort_witness :
    execSeqSteps ⟨true, ["rm"], []⟩ (fun _ => ("", "", 0)) (fun _ => false) 2 1
        ["rm -rf /", "echo ok"] =
      ("rm -rf /", "", cancelledMarker, 1) ::
        execSeqSteps ⟨true, ["rm"], []⟩ (fun _ => ("", "", 0)) (fun _ => false) 2 2
          ["echo ok"] :=
  c2_sequence_skip_and_abort.1 ⟨true, ["rm"], []⟩ (fun _ => ("", "", 0)) (fun _ => false)
    2 1 "rm -rf /" ["echo ok"] (by decide) rfl rfl

/-- C8: when the first whitespace-delimited token of the user input is in
the trivial-command whitelist, the turn's outcome is the same for any
oracle and any edit/interactive matchers (the oracle is never consulted),
and it is decided by `is_command_safe` together with the confirmation
policy before execution. -/
theorem c8_trivial_bypasses_oracle (sec : SecurityConfig) (confirm : String → Bool)
    (pce pce' pi pi' : String → Option String)
    (oracle oracle' : String → CommandProposal) (input : String)
    (htriv : isTrivialInput input = true) :
    processUserInput sec confirm pce pi oracle input =
      processUserInput sec confirm pce' pi' oracle' input ∧
    processUserInput sec confirm pce pi oracle input =
      (if !(is_command_safe sec input).1 && sec.confirm_dangerous_commands &&
          !(confirm (dangerConfirmMsg (is_command_safe sec input).2)) then
        TurnAction.directCancelled
      else TurnAction.directExec input) := by
  constructor <;> simp [processUserInput, htriv]

/-- Witness for C8: `"pwd"` gives the same outcome under two oracles and
matchers that disagree everywhere. -/
theorem c8_trivial_bypasses_oracle_witness :
    processUserInput secOpen (fun _ => true) (fun _ => none) (fun _ => none)
        (fun _ => ⟨"oracle-a", "", false, ""⟩) "pwd" =
      processUserInput secOpen (fun _ => true) (fun _ => some "x") (fun _ => some "y")
        (fun _ => ⟨"oracle-b", "", true, "r"⟩) "pwd" :=
  (c8_trivial_bypasses_oracle secOpen (fun _ => true) (fun _ => none) (fun _ => some "x")
    (fun _ => none) (fun _ => some "y") (fun _ => ⟨"oracle-a", "", false, ""⟩)
    (fun _ => ⟨"oracle-b", "", true, "r"⟩) "pwd" (by decide)).1

set_option maxRecDepth 100000 in
/-- C3 counterexample: a trivial-path command longer than 1000 characters is
executed directly — `process_user_input` applies the length cap only on the
oracle path, after the trivial fast path has already returned. -/
theorem c3_counterexample :
    1000 < longEcho.length ∧
    processUserInput secOpen (fun _ => true) (fun _ => none) (fun _ => none)
      (fun _ => ⟨"", "", false, ""⟩) longEcho = TurnAction.directExec longEcho :=
  ⟨by decide, rfl⟩

/-- C3 amended: the 1000-character cap is enforced on the oracle path only —
whenever the turn reaches the oracle (trivial fast path not taken, no direct
edit or interactive match) and the proposed command is longer than 1000
characters, it is rejected before execution, regardless of its content. -/
theorem c3_length_cap_on_oracle_path (sec : SecurityConfig) (confirm : String → Bool)
    (pce pi : String → Option String) (oracle : String → CommandProposal) (input : String)
    (htriv : isTrivialInput input = false)
    (hpce : pce input = none) (hpi : pi input = none)
    (hlen : 1000 < (oracle input).command.length) :
    processUserInput sec confirm pce pi oracle input = TurnAction.tooLong := by
  have hne : ((oracle input).command == "") = false := by
    cases hcv : (oracle input).command == ""
    · rfl
    · have heq : (oracle input).command = "" := by simpa using hcv
      rw [heq] at hlen
      exact absurd hlen (by decide)
  simp [processUserInput, htriv, hpce, hpi, hne, hlen]

set_option maxRecDepth 100000 in
/-- Witness for the amended C3 at a concrete oracle proposal of 1001
characters. -/
theorem c3_length_cap_on_oracle_path_witness :
    processUserInput secOpen (fun _ => true) (fun _ => none) (fun _ => none)
      (fun _ => longOracle) "部署一个服务" = TurnAction.tooLong :=
  c3_length_cap_on_oracle_path secOpen (fun _ => true) (fun _ => none) (fun _ => none)
    (fun _ => longOracle) "部署一个服务" (by decide) rfl rfl (by decide)

/-- C4 counterexample: on the reply `"### 说明"` the normalizer's
`$`/`#` first-line rule strips one sigil and returns `"## 说明"` — a
non-empty command that still starts with the reserved marker `#`, so the
normalizer does not replace such values by an empty command. -/
theorem c4_counterexample :
    parse_text_command "### 说明" = "## 说明" ∧
    pyStartsWith (parse_text_command "### 说明") "#" = true ∧
    parse_text_command "### 说明" ≠ "" :=
  ⟨by decide, by decide, by decide⟩

/-- C4 amended: the ResponseNormalizer itself can return a command starting
with a reserved prose marker; the guarantee lives one stage later — whenever
the turn reaches the oracle path, `process_user_input` refuses to execute
any proposed command starting with `###`, `##`, `#`, `解释:`, `命令目的:`,
`安全性:` or `是否是危险命令:`, ending the turn at a validation rejection. -/
theorem c4_agent_rejects_prose_commands (sec : SecurityConfig) (confirm : String → Bool)
    (pce pi : String → Option String) (oracle : String → CommandProposal) (input : String)
    (htriv : isTrivialInput input = false)
    (hpce : pce input = none) (hpi : pi input = none)
    (hmark : suspicious_starts.any (fun p => pyStartsWith (oracle input).command p) = true) :
    processUserInput sec confirm pce pi oracle input = TurnAction.noCommand ∨
    processUserInput sec confirm pce pi oracle input = TurnAction.tooLong ∨
    processUserInput sec confirm pce pi oracle input = TurnAction.proseRejected := by
  cases h1 : (oracle input).command == "" with
  | true =>
    left
    simp [processUserInput, htriv, hpce, hpi, h1]
  | false =>
    by_cases h2 : (oracle input).command.length > 1000
    · right; left
      simp [processUserInput, htriv, hpce, hpi, h1, h2]
    · right; right
      simp [processUserInput, htriv, hpce, hpi, h1, h2, hmark]

/-- Witness for the amended C4: a `#`-led oracle proposal is rejected at
validation. -/
theorem c4_agent_rejects_prose_commands_witness :
    processUserInput secOpen (fun _ => true) (fun _ => none) (fun _ => none)
        (fun _ => ⟨"# 这是注释而非命令", "", false, ""⟩) "列出进程" = TurnAction.noCommand ∨
    processUserInput secOpen (fun _ => true) (fun _ => none) (fun _ => none)
        (fun _ => ⟨"# 这是注释而非命令", "", false, ""⟩) "列出进程" = TurnAction.tooLong ∨
    processUserInput secOpen (fun _ => true) (fun _ => none) (fun _ => none)
        (fun _ => ⟨"# 这是注释而非命令", "", false, ""⟩) "列出进程" = TurnAction.proseRejected :=
  c4_agent_rejects_prose_commands secOpen (fun _ => true) (fun _ => none) (fun _ => none)
    (fun _ => ⟨"# 这是注释而非命令", "", false, ""⟩) "列出进程" (by decide) rfl rfl (by decide)

/-- C6: on the JSON path, `get_command_for_task` returns the parsed object
exactly as the parser produced it — no stripping, rewriting or defaulting is
applied to any field. -/
theorem c6_json_path_verbatim (jsonParse : String → Option JValue) (content : String)
    (fields : List (String × JValue))
    (h : jsonParse content = some (JValue.obj fields)) :
    get_command_for_task jsonParse content = OracleReply.fromJson (JValue.obj fields) := by
  simp [get_command_for_task, h]

/-- Witness for C6: a concrete well-formed JSON reply parsed by the
`json.loads` model round-trips verbatim (backticks and emphasis characters
in the field values included, which the text fallback would have
stripped). -/
theorem c6_json_path_verbatim_witness :
    get_command_for_task jsonParseModel
        "\x7b\"command\": \"echo \x60ls -la\x60 *\", \"explanation\": \"list\", \"dangerous\": false, \"reason_if_dangerous\": \"\"\x7d" =
      OracleReply.fromJson (JValue.obj
        [("command", JValue.str "echo \x60ls -la\x60 *"), ("explanation", JValue.str "list"),
         ("dangerous", JValue.bool false), ("reason_if_dangerous", JValue.str "")]) :=
  c6_json_path_verbatim jsonParseModel
    "\x7b\"command\": \"echo \x60ls -la\x60 *\", \"explanation\": \"list\", \"dangerous\": false, \"reason_if_dangerous\": \"\"\x7d"
    [("command", JValue.str "echo \x60ls -la\x60 *"), ("explanation", JValue.str "list"),
     ("dangerous", JValue.bool false), ("reason_if_dangerous", JValue.str "")] rfl

end LA
